import Mathlib

/-!
Verification development for the magebase/payments repository.

The Go sources are shallowly embedded as pure Lean functions: Go methods that
mutate a receiver become state-passing functions, Go's `(value, error)` multiple
returns become `Option value × Option errMsg` pairs (or `Except` where the pair
is never `(some, some)` in the source), Go `int`/`int64` become `Int` or `Nat`,
`time.Time` becomes an `Int` whose zero value models Go's zero time, and
`map[string]T` becomes an association list with Go-map insert/lookup semantics.
-/

set_option linter.unusedVariables false

namespace Payments

/-- Association-list lookup with Go-map semantics (first matching key wins;
the insert below keeps keys unique, so this is map lookup). -/
def assocFind? {α : Type} (m : List (String × α)) (k : String) : Option α :=
  match m with
  | [] => none
  | (k', v) :: rest => if k' = k then some v else assocFind? rest k

/-- Association-list insert with Go-map semantics (overwrite if present). -/
def assocInsert {α : Type} (m : List (String × α)) (k : String) (v : α) :
    List (String × α) :=
  match m with
  | [] => [(k, v)]
  | (k', v') :: rest =>
      if k' = k then (k, v) :: rest else (k', v') :: assocInsert rest k v

namespace Kafka

/-- A Go `interface{}` value as it appears in event `data` payloads. -/
inductive GoVal where
  | str : String → GoVal
  | int : Int → GoVal
  | boolean : Bool → GoVal
  | null : GoVal
deriving DecidableEq, Repr

/-- Embeds `kafka.PaymentEvent` (kafka.go lines 14-21): a payment event in CloudEvents
format.  `time` is an `Int` whose value `0` models Go's zero `time.Time`. -/
structure PaymentEvent where
  id : String
  type' : String
  source : String
  data : List (String × GoVal)
  time : Int
  specversion : String
deriving DecidableEq, Repr

/-- Embeds `CloudEventsValidator.Validate` (kafka.go lines 157-183): field checks in
source order — id, type, source, specversion, specversion membership, time. -/
def Validate (event : PaymentEvent) : Except String Unit :=
  if event.id = "" then .error "event id is required"
  else if event.type' = "" then .error "event type is required"
  else if event.source = "" then .error "event source is required"
  else if event.specversion = "" then .error "event specversion is required"
  else if event.specversion ≠ "1.0" ∧ event.specversion ≠ "1.1" then
    .error "event specversion must be 1.0 or 1.1"
  else if event.time = 0 then .error "event time should be set"
  else .ok ()

/-- Embeds `kafka.EventSchema` (kafka.go lines 186-192). -/
structure EventSchema where
  version : String
  type' : String
  description : String
  requiredFields : List String
  optionalFields : List String
deriving DecidableEq, Repr

/-- Embeds `kafka.CloudEventsVersionManager` (kafka.go lines 195-197): schemas keyed
by the string `type:version`. -/
structure CloudEventsVersionManager where
  schemas : List (String × EventSchema)
deriving Repr

/-- Embeds `CloudEventsVersionManager.RegisterSchema` (kafka.go lines 235-249). -/
def RegisterSchema (vm : CloudEventsVersionManager) (schema : Option EventSchema) :
    Except String CloudEventsVersionManager :=
  match schema with
  | none => .error "schema cannot be nil"
  | some s =>
      if s.version = "" then .error "schema version is required"
      else if s.type' = "" then .error "schema type is required"
      else .ok ⟨assocInsert vm.schemas (s.type' ++ ":" ++ s.version) s⟩

/-- The required-field loop of `ValidateAgainstVersion` (kafka.go lines
266-273): structural fields are skipped, the first missing data field is
reported. -/
def checkRequired (fields : List String) (data : List (String × GoVal)) :
    Except String Unit :=
  match fields with
  | [] => .ok ()
  | f :: rest =>
      if f = "id" ∨ f = "type" ∨ f = "source" ∨ f = "specversion" ∨ f = "time" then
        checkRequired rest data
      else if (assocFind? data f).isSome then checkRequired rest data
      else .error ("required field " ++ f ++ " not found in event data")

/-- Embeds `CloudEventsVersionManager.ValidateAgainstVersion` (kafka.go lines 252-276). -/
def ValidateAgainstVersion (vm : CloudEventsVersionManager) (event : PaymentEvent)
    (version : String) : Except String Unit :=
  match assocFind? vm.schemas (event.type' ++ ":" ++ version) with
  | none =>
      .error ("schema version " ++ version ++ " for type " ++ event.type' ++ " not found")
  | some schema =>
      match Validate event with
      | .error e => .error ("basic validation failed: " ++ e)
      | .ok _ => checkRequired schema.requiredFields event.data

/-- The `for k, v := range event.Data` copy loop of `MigrateToVersion`
(kafka.go lines 296-299); a fresh map is filled with the same entries. -/
def copyData (d : List (String × GoVal)) : List (String × GoVal) :=
  d.foldl (fun acc kv => acc ++ [kv]) []

/-- Embeds `CloudEventsVersionManager.MigrateToVersion` (kafka.go lines 279-307):
builds a fresh envelope with `specversion` set to the target, validates it
against the target schema, and fails closed. -/
def MigrateToVersion (vm : CloudEventsVersionManager) (event : PaymentEvent)
    (targetVersion : String) : Except String PaymentEvent :=
  match assocFind? vm.schemas (event.type' ++ ":" ++ targetVersion) with
  | none =>
      .error ("target schema version " ++ targetVersion ++ " for type " ++
        event.type' ++ " not found")
  | some _schema =>
      let migratedEvent : PaymentEvent :=
        { id := event.id, type' := event.type', source := event.source
          data := copyData event.data, time := event.time
          specversion := targetVersion }
      match ValidateAgainstVersion vm migratedEvent targetVersion with
      | .error e => .error ("migrated event validation failed against schema: " ++ e)
      | .ok _ => .ok migratedEvent

/-- The default `customer.created` v1.0 schema (kafka.go lines 214-221). -/
def customerV1 : EventSchema :=
  { version := "1.0", type' := "customer.created"
    description := "Customer created event v1.0"
    requiredFields := ["id", "type", "source", "specversion", "time"]
    optionalFields := ["customer_id", "email", "name"] }

/-- The default `customer.created` v1.1 schema (kafka.go lines 224-231). -/
def customerV11 : EventSchema :=
  { version := "1.1", type' := "customer.created"
    description := "Customer created event v1.1 with additional fields"
    requiredFields := ["id", "type", "source", "specversion", "time", "customer_id", "email"]
    optionalFields := ["name", "metadata"] }

/-- Embeds `registerDefaultSchemas` discards `RegisterSchema`'s error return
(kafka.go lines 212-232); this helper mirrors that. -/
def registerOrKeep (vm : CloudEventsVersionManager) (s : EventSchema) :
    CloudEventsVersionManager :=
  match RegisterSchema vm (some s) with
  | .ok vm' => vm'
  | .error _ => vm

/-- Embeds `NewCloudEventsVersionManager` (kafka.go lines 200-209). -/
def NewCloudEventsVersionManager : CloudEventsVersionManager :=
  registerOrKeep (registerOrKeep ⟨[]⟩ customerV1) customerV11

/-- Embeds `kafka.DeadLetterEvent` (kafka.go lines 310-315). -/
structure DeadLetterEvent where
  event : PaymentEvent
  failureReason : String
  failureTime : Int
  retryCount : Nat
deriving DecidableEq, Repr

/-- Embeds `kafka.DeadLetterQueueStatistics` (kafka.go lines 318-321). -/
structure DeadLetterQueueStatistics where
  totalEvents : Nat
  retryCount : Nat
deriving DecidableEq, Repr

/-- Embeds `kafka.DeadLetterQueueManager` (kafka.go lines 324-327). -/
structure DeadLetterQueueManager where
  events : List DeadLetterEvent
  totalRetries : Nat
deriving DecidableEq, Repr

/-- Embeds `NewDeadLetterQueueManager` (kafka.go lines 330-334). -/
def NewDeadLetterQueueManager : DeadLetterQueueManager := ⟨[], 0⟩

/-- Embeds `DeadLetterQueueManager.SendToDeadLetterQueue` (kafka.go lines 337-354).
The nil-envelope check is modelled with an `Option` argument; `now` stands for
`time.Now().UTC()`. -/
def SendToDeadLetterQueue (dlq : DeadLetterQueueManager)
    (event : Option PaymentEvent) (failureReason : String) (now : Int) :
    Except String DeadLetterQueueManager :=
  match event with
  | none => .error "event cannot be nil"
  | some e =>
      if failureReason = "" then .error "failure reason is required"
      else .ok { dlq with
        events := dlq.events ++ [⟨e, failureReason, now, 0⟩] }

/-- Embeds `DeadLetterQueueManager.GetDeadLetterEvents` (kafka.go lines 357-359). -/
def GetDeadLetterEvents (dlq : DeadLetterQueueManager) : List DeadLetterEvent :=
  dlq.events

/-- The search-and-remove loop of `RetryEvent` (kafka.go lines 363-377): the
first entry whose envelope id matches is removed and its envelope returned.
(The source also bumps the removed entry's own retry count just before
removal; that write is unobservable once the entry leaves the queue.) -/
def retryLoop (events : List DeadLetterEvent) (eventID : String) :
    Option (PaymentEvent × List DeadLetterEvent) :=
  match events with
  | [] => none
  | d :: rest =>
      if d.event.id = eventID then some (d.event, rest)
      else
        match retryLoop rest eventID with
        | some (e, rest') => some (e, d :: rest')
        | none => none

/-- Embeds `DeadLetterQueueManager.RetryEvent` (kafka.go lines 362-380): returns the
envelope for re-publishing, removes its entry and bumps the global retry
counter; an unknown id is an error and the state is returned unchanged. -/
def RetryEvent (dlq : DeadLetterQueueManager) (eventID : String) :
    Except String PaymentEvent × DeadLetterQueueManager :=
  match retryLoop dlq.events eventID with
  | some (e, rest) => (.ok e, ⟨rest, dlq.totalRetries + 1⟩)
  | none =>
      (.error ("event with ID " ++ eventID ++ " not found in dead letter queue"), dlq)

/-- Embeds `DeadLetterQueueManager.GetStatistics` (kafka.go lines 383-390). -/
def GetStatistics (dlq : DeadLetterQueueManager) : DeadLetterQueueStatistics :=
  ⟨dlq.events.length, dlq.totalRetries⟩

/-- Embeds `kafka.EventReplayManager` (kafka.go lines 405-408). -/
structure EventReplayManager where
  events : List PaymentEvent
  replayCount : Nat
deriving DecidableEq, Repr

/-- Embeds `EventReplayManager.StoreEvent` (kafka.go lines 419-426). -/
def StoreEvent (erm : EventReplayManager) (event : Option PaymentEvent) :
    Except String EventReplayManager :=
  match event with
  | none => .error "event cannot be nil"
  | some e => .ok { erm with events := erm.events ++ [e] }

/-- The selection loop of `ReplayEvents` (kafka.go lines 437-441):
`event.Time.After(startTime) && event.Time.Before(endTime)`, i.e. a strict
open interval. -/
def replaySelect (events : List PaymentEvent) (startTime endTime : Int) :
    List PaymentEvent :=
  match events with
  | [] => []
  | e :: rest =>
      if startTime < e.time ∧ e.time < endTime then
        e :: replaySelect rest startTime endTime
      else replaySelect rest startTime endTime

/-- Embeds `EventReplayManager.ReplayEvents` (kafka.go lines 434-445): filters the
stored log by the open time interval and bumps the replay counter
unconditionally. -/
def ReplayEvents (erm : EventReplayManager) (startTime endTime : Int) :
    List PaymentEvent × EventReplayManager :=
  (replaySelect erm.events startTime endTime,
    { erm with replayCount := erm.replayCount + 1 })

/-- Embeds `kafka.ReplayStatistics` (kafka.go lines 399-402). -/
structure ReplayStatistics where
  totalStoredEvents : Nat
  totalReplayOperations : Nat
deriving DecidableEq, Repr

/-- Embeds `EventReplayManager.GetReplayStatistics` (kafka.go lines 462-467). -/
def GetReplayStatistics (erm : EventReplayManager) : ReplayStatistics :=
  ⟨erm.events.length, erm.replayCount⟩

theorem copyData_foldl (d : List (String × GoVal)) :
    ∀ acc, d.foldl (fun acc kv => acc ++ [kv]) acc = acc ++ d := by
  induction d with
  | nil => intro acc; simp
  | cons kv rest ih => intro acc; simp [List.foldl_cons, ih]

/-- The Go map-copy loop reproduces the original data field for field. -/
theorem copyData_eq (d : List (String × GoVal)) : copyData d = d := by
  simpa using copyData_foldl d []

theorem retryLoop_append_found (l : List DeadLetterEvent) (entry : DeadLetterEvent)
    (eventID : String) (h : entry.event.id = eventID) :
    ∃ e rest, retryLoop (l ++ [entry]) eventID = some (e, rest) ∧
      e.id = eventID ∧ rest.length = l.length := by
  induction l with
  | nil =>
      refine ⟨entry.event, [], ?_, h, rfl⟩
      simp [retryLoop, h]
  | cons d rest ih =>
      by_cases hd : d.event.id = eventID
      · exact ⟨d.event, rest ++ [entry], by simp [retryLoop, hd], hd, by simp⟩
      · obtain ⟨e, rest', hloop, hid, hlen⟩ := ih
        refine ⟨e, d :: rest', ?_, hid, by simp [hlen]⟩
        simp [retryLoop, hd, hloop]

theorem retryLoop_not_found (l : List DeadLetterEvent) (eventID : String)
    (h : ∀ d ∈ l, d.event.id ≠ eventID) : retryLoop l eventID = none := by
  induction l with
  | nil => rfl
  | cons d rest ih =>
      have hd : d.event.id ≠ eventID := h d (by simp)
      have hrest : retryLoop rest eventID = none :=
        ih (fun d' hd' => h d' (by simp [hd']))
      simp [retryLoop, hd, hrest]

theorem replaySelect_eq_filter (l : List PaymentEvent) (s t : Int) :
    replaySelect l s t = l.filter (fun e => decide (s < e.time ∧ e.time < t)) := by
  induction l with
  | nil => rfl
  | cons e rest ih =>
      by_cases he : s < e.time ∧ e.time < t
      · simp [replaySelect, he, ih, List.filter_cons]
      · simp [replaySelect, he, ih, List.filter_cons]

end Kafka

namespace Webhook

/-!
Embedding of `WebhookService.verifySignature` (stripe/webhooks.go lines
86-133).  Go strings are modelled as `List Char` (one `Char` per byte; the
scenarios of interest are ASCII), `time.Now().Unix()` as an `Int` argument,
and the `crypto/hmac` + `crypto/sha256` + `encoding/hex` standard-library
calls as a full executable SHA-256 / HMAC / hex implementation below
(checked against the FIPS 180-4 and RFC 4231 test vectors).
-/

/-- Truncation to a 32-bit word. -/
def u32 (n : Nat) : Nat := n % 4294967296

/-- Rotation right by n bits, 32-bit (argument already a 32-bit word). -/
def rotr32 (n x : Nat) : Nat := u32 ((x >>> n) ||| (x <<< (32 - n)))

def bsig0 (x : Nat) : Nat := (rotr32 2 x) ^^^ (rotr32 13 x) ^^^ (rotr32 22 x)

def bsig1 (x : Nat) : Nat := (rotr32 6 x) ^^^ (rotr32 11 x) ^^^ (rotr32 25 x)

def ssig0 (x : Nat) : Nat := (rotr32 7 x) ^^^ (rotr32 18 x) ^^^ (x >>> 3)

def ssig1 (x : Nat) : Nat := (rotr32 17 x) ^^^ (rotr32 19 x) ^^^ (x >>> 10)

def chf (x y z : Nat) : Nat := (x &&& y) ^^^ ((x ^^^ 4294967295) &&& z)

def majf (x y z : Nat) : Nat := (x &&& y) ^^^ (x &&& z) ^^^ (y &&& z)

/-- The SHA-256 round constants. -/
def sha256K : List Nat :=
  [1116352408, 1899447441, 3049323471, 3921009573, 961987163, 1508970993,
   2453635748, 2870763221, 3624381080, 310598401, 607225278, 1426881987,
   1925078388, 2162078206, 2614888103, 3248222580, 3835390401, 4022224774,
   264347078, 604807628, 770255983, 1249150122, 1555081692, 1996064986,
   2554220882, 2821834349, 2952996808, 3210313671, 3336571891, 3584528711,
   113926993, 338241895, 666307205, 773529912, 1294757372, 1396182291,
   1695183700, 1986661051, 2177026350, 2456956037, 2730485921, 2820302411,
   3259730800, 3345764771, 3516065817, 3600352804, 4094571909, 275423344,
   430227734, 506948616, 659060556, 883997877, 958139571, 1322822218,
   1537002063, 1747873779, 1955562222, 2024104815, 2227730452, 2361852424,
   2428436474, 2756734187, 3204031479, 3329325298]

/-- A SHA-256 working state / digest of eight 32-bit words. -/
structure Hash8 where
  a : Nat
  b : Nat
  c : Nat
  d : Nat
  e : Nat
  f : Nat
  g : Nat
  h : Nat
deriving DecidableEq, Repr

/-- The SHA-256 initial hash value. -/
def sha256H0 : Hash8 :=
  ⟨1779033703, 3144134277, 1013904242, 2773480762, 1359893119, 2600822924, 528734635, 1541459225⟩

/-- One SHA-256 compression round. -/
def sha256Round (st : Hash8) (ki wi : Nat) : Hash8 :=
  let t1 := u32 (st.h + bsig1 st.e + chf st.e st.f st.g + ki + wi)
  let t2 := u32 (bsig0 st.a + majf st.a st.b st.c)
  ⟨u32 (t1 + t2), st.a, st.b, st.c, u32 (st.d + t1), st.e, st.f, st.g⟩

/-- Next message-schedule word from the last 16 already produced. -/
def newWord (w : List Nat) : Nat :=
  let l := w.length
  u32 (ssig1 (w.getD (l - 2) 0) + w.getD (l - 7) 0 + ssig0 (w.getD (l - 15) 0) +
    w.getD (l - 16) 0)

/-- Extend the 16 block words by `n` schedule words. -/
def extendLoop : Nat → List Nat → List Nat
  | 0, w => w
  | n + 1, w => extendLoop n (w ++ [newWord w])

/-- Big-endian bytes to 32-bit words. -/
def bytesToWords : List Nat → List Nat
  | b1 :: b2 :: b3 :: b4 :: rest =>
      (b1 * 16777216 + b2 * 65536 + b3 * 256 + b4) :: bytesToWords rest
  | _ => []

/-- SHA-256 compression of one 64-byte block. -/
def compressBlock (h0 : Hash8) (block : List Nat) : Hash8 :=
  let w := extendLoop 48 (bytesToWords block)
  let st := (sha256K.zip w).foldl (fun st kw => sha256Round st kw.1 kw.2) h0
  ⟨u32 (h0.a + st.a), u32 (h0.b + st.b), u32 (h0.c + st.c), u32 (h0.d + st.d),
   u32 (h0.e + st.e), u32 (h0.f + st.f), u32 (h0.g + st.g), u32 (h0.h + st.h)⟩

/-- A 32-bit word as four big-endian bytes. -/
def be32 (n : Nat) : List Nat :=
  [(n >>> 24) % 256, (n >>> 16) % 256, (n >>> 8) % 256, n % 256]

/-- A 64-bit value as eight big-endian bytes. -/
def be64 (n : Nat) : List Nat :=
  [(n >>> 56) % 256, (n >>> 48) % 256, (n >>> 40) % 256, (n >>> 32) % 256,
   (n >>> 24) % 256, (n >>> 16) % 256, (n >>> 8) % 256, n % 256]

/-- SHA-256 message padding: `0x80`, zeros, 64-bit big-endian bit length. -/
def sha256Pad (msg : List Nat) : List Nat :=
  let len := msg.length
  let k := (119 - (len % 64)) % 64
  msg ++ 128 :: List.replicate k 0 ++ be64 (len * 8)

/-- Split into 64-byte blocks (fuelled by the list length, which strictly
exceeds the number of blocks). -/
def toBlocksFuel : Nat → List Nat → List (List Nat)
  | 0, _ => []
  | _ + 1, [] => []
  | fuel + 1, l => l.take 64 :: toBlocksFuel fuel (l.drop 64)

def toBlocks (l : List Nat) : List (List Nat) := toBlocksFuel l.length l

/-- SHA-256 of a byte string. -/
def sha256 (msg : List Nat) : List Nat :=
  let hFin := (toBlocks (sha256Pad msg)).foldl compressBlock sha256H0
  be32 hFin.a ++ be32 hFin.b ++ be32 hFin.c ++ be32 hFin.d ++
    be32 hFin.e ++ be32 hFin.f ++ be32 hFin.g ++ be32 hFin.h

/-- HMAC-SHA256 (RFC 2104), as `crypto/hmac` computes it. -/
def hmacSha256 (key msg : List Nat) : List Nat :=
  let k0 := if key.length > 64 then sha256 key else key
  let kPad := k0 ++ List.replicate (64 - k0.length) 0
  sha256 ((kPad.map (fun b => b ^^^ 92)) ++ sha256 ((kPad.map (fun b => b ^^^ 54)) ++ msg))

/-- Lowercase hex digit, as `encoding/hex` produces. -/
def hexDigit (n : Nat) : Char := Char.ofNat (if n < 10 then 48 + n else 87 + n)

/-- Embeds `hex.EncodeToString` over a byte string. -/
def bytesToHex (bs : List Nat) : List Char :=
  bs.foldr (fun b acc => hexDigit (b / 16) :: hexDigit (b % 16) :: acc) []

/-- Bytes of a Go string (ASCII assumed; each char is one byte). -/
def strBytes (s : List Char) : List Nat := s.map (fun c => c.toNat % 256)

/-- Embeds `hex(HMAC-SHA256(secret, msg))` over Go strings. -/
def hmacSha256Hex (secret msg : List Char) : List Char :=
  bytesToHex (hmacSha256 (strBytes secret) (strBytes msg))

/-- The header token `t=`. -/
def tTok : List Char := ['t', '=']

/-- The header token `v1=`. -/
def v1Tok : List Char := ['v', '1', '=']

/-- Embeds `strings.HasPrefix pre s` over char lists. -/
def startsWith : List Char → List Char → Bool
  | [], _ => true
  | _ :: _, [] => false
  | p :: ps, c :: cs => p == c && startsWith ps cs

/-- Decimal digit-string value (none if empty or any non-digit), as the core
of `strconv.ParseInt`. -/
def digitsVal (s : List Char) : Option Nat :=
  if s = [] then none
  else if s.all (fun c => 48 ≤ c.toNat && c.toNat ≤ 57) then
    some (s.foldl (fun acc c => acc * 10 + (c.toNat - 48)) 0)
  else none

def maxInt64 : Int := 9223372036854775807

/-- Embeds `strconv.ParseInt(s, 10, 64)`: optional sign, decimal digits, int64
range check (an out-of-range value is an error). -/
def goParseInt (s : List Char) : Option Int :=
  match s with
  | '+' :: rest =>
      (digitsVal rest).bind (fun n => if (n : Int) ≤ maxInt64 then some (n : Int) else none)
  | '-' :: rest =>
      (digitsVal rest).bind (fun n => if (n : Int) ≤ maxInt64 + 1 then some (-(n : Int)) else none)
  | _ =>
      (digitsVal s).bind (fun n => if (n : Int) ≤ maxInt64 then some (n : Int) else none)

/-- The token-assignment loop of `verifySignature` (webhooks.go lines
97-104): scan the comma-separated parts, last `t=` prefix wins for the
timestamp, last `v1=` prefix (on a part without the `t=` prefix) wins for
the signature; both default to the empty string. -/
def scanParts (parts : List (List Char)) : List Char × List Char :=
  parts.foldl
    (fun acc part =>
      if startsWith tTok part then (part.drop 2, acc.2)
      else if startsWith v1Tok part then (acc.1, part.drop 3)
      else acc)
    ([], [])

/-- The tail of `verifySignature` after header parsing (webhooks.go lines
106-132): empty-token check, timestamp parse, 300-second tolerance, then the
constant-time comparison of `v1` against `hex(HMAC-SHA256(secret, t.body))`
(equality of byte strings). -/
def verifyScan (secret : List Char) (now : Int) (scan : List Char × List Char)
    (payload : List Char) : Except String Unit :=
  if scan.1 = [] ∨ scan.2 = [] then .error "missing timestamp or signature in header"
  else
    match goParseInt scan.1 with
    | none => .error "invalid timestamp"
    | some ts =>
        if now - ts > 300 then .error "webhook timestamp too old"
        else if scan.2 = hmacSha256Hex secret (scan.1 ++ '.' :: payload) then .ok ()
        else .error "signature verification failed"

/-- Embeds `WebhookService.verifySignature` (webhooks.go lines 86-133): empty-header
check, split on `,` into exactly two parts, token scan, then `verifyScan`.
`now` stands for `time.Now().Unix()`. -/
def verifySignature (secret : List Char) (now : Int) (signature payload : List Char) :
    Except String Unit :=
  if signature = [] then .error "missing Stripe-Signature header"
  else if (signature.splitOn ',').length ≠ 2 then .error "invalid signature format"
  else verifyScan secret now (scanParts (signature.splitOn ',')) payload

theorem startsWith_iff (pre s : List Char) :
    startsWith pre s = true ↔ ∃ rest, s = pre ++ rest := by
  induction pre generalizing s with
  | nil => simp [startsWith]
  | cons p ps ih =>
      cases s with
      | nil => simp [startsWith]
      | cons c cs =>
          rw [startsWith, Bool.and_eq_true, beq_iff_eq, ih]
          constructor
          · rintro ⟨rfl, rest, rfl⟩
            exact ⟨rest, rfl⟩
          · rintro ⟨rest, heq⟩
            injection heq with h1 h2
            exact ⟨h1.symm, rest, h2⟩

theorem startsWith_self (pre rest : List Char) : startsWith pre (pre ++ rest) = true :=
  (startsWith_iff pre _).mpr ⟨rest, rfl⟩

theorem startsWith_t_v (rest : List Char) : startsWith tTok (v1Tok ++ rest) = false := rfl

theorem startsWith_v_t (rest : List Char) : startsWith v1Tok (tTok ++ rest) = false := rfl

theorem t_decomp (p : List Char) (h : startsWith tTok p = true) :
    p = tTok ++ p.drop 2 := by
  obtain ⟨rest, rfl⟩ := (startsWith_iff _ _).mp h
  rfl

theorem v_decomp (p : List Char) (h : startsWith v1Tok p = true) :
    p = v1Tok ++ p.drop 3 := by
  obtain ⟨rest, rfl⟩ := (startsWith_iff _ _).mp h
  rfl

theorem sha256_ne_nil (msg : List Nat) : sha256 msg ≠ [] := by
  simp [sha256, be32]

theorem hmacSha256Hex_ne_nil (secret msg : List Char) : hmacSha256Hex secret msg ≠ [] := by
  have h : hmacSha256 (strBytes secret) (strBytes msg) ≠ [] := sha256_ne_nil _
  unfold hmacSha256Hex
  cases hb : hmacSha256 (strBytes secret) (strBytes msg) with
  | nil => exact absurd hb h
  | cons b rest => simp [bytesToHex]

theorem goParseInt_nil : goParseInt [] = none := rfl

theorem drop_two_t (t : List Char) : (tTok ++ t).drop 2 = t := rfl

theorem drop_three_v (s : List Char) : (v1Tok ++ s).drop 3 = s := rfl

/-- The success characterization of `verifyScan`. -/
theorem verifyScan_ok_iff (secret : List Char) (now : Int) (t sg payload : List Char) :
    verifyScan secret now (t, sg) payload = .ok () ↔
    ∃ n, goParseInt t = some n ∧ now - n ≤ 300 ∧
      sg = hmacSha256Hex secret (t ++ '.' :: payload) := by
  constructor
  · intro hok
    by_cases h0 : t = [] ∨ sg = []
    · simp [verifyScan, h0] at hok
    · cases hpar : goParseInt t with
      | none => simp [verifyScan, h0, hpar] at hok
      | some ts =>
          by_cases htol : now - ts > 300
          · simp [verifyScan, h0, hpar, htol] at hok
          · by_cases hcmp : sg = hmacSha256Hex secret (t ++ '.' :: payload)
            · exact ⟨ts, rfl, by omega, hcmp⟩
            · simp [verifyScan, h0, hpar, htol, hcmp] at hok
  · rintro ⟨n, hpar, htol, hcmp⟩
    have ht : t ≠ [] := by
      intro h; rw [h, goParseInt_nil] at hpar; exact absurd hpar (by simp)
    have hs : hmacSha256Hex secret (t ++ '.' :: payload) ≠ [] := hmacSha256Hex_ne_nil _ _
    simp [verifyScan, hpar, show ¬ now - n > 300 by omega, hcmp, ht, hs]

/-- Full success characterization of `verifySignature`: it returns ok exactly
when the header splits on `,` into a `t=` token and a `v1=` token (in either
order), the timestamp parses, `now - t` does not exceed 300, and the `v1`
value is exactly `hex(HMAC-SHA256(secret, "<t>.<body>"))`. -/
theorem verifySignature_ok_iff (secret : List Char) (now : Int)
    (header payload : List Char) :
    verifySignature secret now header payload = .ok () ↔
    ∃ tStr n,
      (header.splitOn ',' =
          [tTok ++ tStr, v1Tok ++ hmacSha256Hex secret (tStr ++ '.' :: payload)] ∨
        header.splitOn ',' =
          [v1Tok ++ hmacSha256Hex secret (tStr ++ '.' :: payload), tTok ++ tStr]) ∧
      goParseInt tStr = some n ∧ now - n ≤ 300 := by
  by_cases hh : header = []
  · subst hh
    rw [List.splitOn_nil]
    simp [verifySignature]
  · cases hsplit : header.splitOn ',' with
    | nil => simp [verifySignature, hh, hsplit]
    | cons p1 rest1 =>
      cases rest1 with
      | nil => simp [verifySignature, hh, hsplit]
      | cons p2 rest2 =>
        cases rest2 with
        | cons p3 rest3 => simp [verifySignature, hh, hsplit]
        | nil =>
          have hv : verifySignature secret now header payload =
              verifyScan secret now (scanParts [p1, p2]) payload := by
            simp [verifySignature, hh, hsplit]
          rw [hv]
          by_cases ht2 : startsWith tTok p2 = true
          · by_cases ht1 : startsWith tTok p1 = true
            · -- both parts carry t=, the signature token stays empty
              have hscan : scanParts [p1, p2] = (p2.drop 2, []) := by
                simp [scanParts, ht1, ht2]
              rw [hscan]
              constructor
              · intro hok
                simp [verifyScan] at hok
              · rintro ⟨t, n, (hd | hd), hpar, htol⟩ <;>
                  simp only [List.cons.injEq, and_true] at hd
                · rw [hd.2] at ht2
                  rw [startsWith_t_v] at ht2
                  exact absurd ht2 (by simp)
                · rw [hd.1] at ht1
                  rw [startsWith_t_v] at ht1
                  exact absurd ht1 (by simp)
            · by_cases hv1 : startsWith v1Tok p1 = true
              · -- p1 is the v1= token, p2 the t= token (reversed order)
                have hscan : scanParts [p1, p2] = (p2.drop 2, p1.drop 3) := by
                  simp [scanParts, ht1, hv1, ht2]
                rw [hscan, verifyScan_ok_iff]
                constructor
                · rintro ⟨n, hpar, htol, hcmp⟩
                  refine ⟨p2.drop 2, n, Or.inr ?_, hpar, htol⟩
                  rw [List.cons.injEq, List.cons.injEq]
                  exact ⟨by rw [← hcmp]; exact v_decomp p1 hv1,
                    t_decomp p2 ht2, rfl⟩
                · rintro ⟨t, n, (hd | hd), hpar, htol⟩ <;>
                    simp only [List.cons.injEq, and_true] at hd
                  · rw [hd.1] at ht1
                    rw [startsWith_self] at ht1
                    exact absurd rfl ht1
                  · refine ⟨n, ?_, htol, ?_⟩
                    · rw [hd.2, drop_two_t]; exact hpar
                    · rw [hd.1, drop_three_v, hd.2, drop_two_t]
              · -- p2 is t=, p1 is neither: signature token stays empty
                have hscan : scanParts [p1, p2] = (p2.drop 2, []) := by
                  simp [scanParts, ht1, hv1, ht2]
                rw [hscan]
                constructor
                · intro hok
                  simp [verifyScan] at hok
                · rintro ⟨t, n, (hd | hd), hpar, htol⟩ <;>
                    simp only [List.cons.injEq, and_true] at hd
                  · rw [hd.2] at ht2
                    rw [startsWith_t_v] at ht2
                    exact absurd ht2 (by simp)
                  · rw [hd.1] at hv1
                    rw [startsWith_self] at hv1
                    exact absurd rfl hv1
          · by_cases hv2 : startsWith v1Tok p2 = true
            · by_cases ht1 : startsWith tTok p1 = true
              · -- the canonical order: p1 is t=, p2 is v1=
                have hscan : scanParts [p1, p2] = (p1.drop 2, p2.drop 3) := by
                  simp [scanParts, ht1, ht2, hv2]
                rw [hscan, verifyScan_ok_iff]
                constructor
                · rintro ⟨n, hpar, htol, hcmp⟩
                  refine ⟨p1.drop 2, n, Or.inl ?_, hpar, htol⟩
                  rw [List.cons.injEq, List.cons.injEq]
                  exact ⟨t_decomp p1 ht1, by rw [← hcmp]; exact v_decomp p2 hv2, rfl⟩
                · rintro ⟨t, n, (hd | hd), hpar, htol⟩ <;>
                    simp only [List.cons.injEq, and_true] at hd
                  · refine ⟨n, ?_, htol, ?_⟩
                    · rw [hd.1, drop_two_t]; exact hpar
                    · rw [hd.2, drop_three_v, hd.1, drop_two_t]
                  · rw [hd.1] at ht1
                    rw [startsWith_t_v] at ht1
                    exact absurd ht1 (by simp)
              · -- no part carries t=: timestamp token stays empty
                have hscan : (scanParts [p1, p2]).1 = [] := by
                  by_cases hv1 : startsWith v1Tok p1 = true <;>
                    simp [scanParts, ht1, ht2, hv1, hv2]
                constructor
                · intro hok
                  rcases hsc : scanParts [p1, p2] with ⟨ts, sg⟩
                  rw [hsc] at hok
                  have : ts = [] := by rw [hsc] at hscan; exact hscan
                  subst this
                  simp [verifyScan] at hok
                · rintro ⟨t, n, (hd | hd), hpar, htol⟩ <;>
                    simp only [List.cons.injEq, and_true] at hd
                  · rw [hd.1] at ht1
                    rw [startsWith_self] at ht1
                    exact absurd rfl ht1
                  · rw [hd.2] at ht2
                    rw [startsWith_self] at ht2
                    exact absurd rfl ht2
            · -- p2 is neither token
              by_cases ht1 : startsWith tTok p1 = true
              · -- p1 is t=, so the signature token stays empty
                have hscan : scanParts [p1, p2] = (p1.drop 2, []) := by
                  simp [scanParts, ht1, ht2, hv2]
                rw [hscan]
                constructor
                · intro hok
                  simp [verifyScan] at hok
                · rintro ⟨t, n, (hd | hd), hpar, htol⟩ <;>
                    simp only [List.cons.injEq, and_true] at hd
                  · rw [hd.2] at hv2
                    rw [startsWith_self] at hv2
                    exact absurd rfl hv2
                  · rw [hd.1] at ht1
                    rw [startsWith_t_v] at ht1
                    exact absurd ht1 (by simp)
              · -- neither part carries t=
                have hscan : (scanParts [p1, p2]).1 = [] := by
                  by_cases hv1 : startsWith v1Tok p1 = true <;>
                    simp [scanParts, ht1, ht2, hv1, hv2]
                constructor
                · intro hok
                  rcases hsc : scanParts [p1, p2] with ⟨ts, sg⟩
                  rw [hsc] at hok
                  have : ts = [] := by rw [hsc] at hscan; exact hscan
                  subst this
                  simp [verifyScan] at hok
                · rintro ⟨t, n, (hd | hd), hpar, htol⟩ <;>
                    simp only [List.cons.injEq, and_true] at hd
                  · rw [hd.1] at ht1
                    rw [startsWith_self] at ht1
                    exact absurd rfl ht1
                  · rw [hd.2] at ht2
                    rw [startsWith_self] at ht2
                    exact absurd rfl ht2

theorem append_tTok_ne_v1Tok (a b : List Char) : tTok ++ a ≠ v1Tok ++ b := by
  intro h
  have h' : 't' = 'v' := by injection h
  exact absurd h' (by decide)

end Webhook

namespace Services

/-- Embeds `services.GatewayCapabilities` (interfaces.go lines 65-76). -/
structure GatewayCapabilities where
  supportsSubscriptions : Bool
  supportsConnect : Bool
  supportsTax : Bool
  supportsInvoices : Bool
  supportsPayouts : Bool
  supportsDisputes : Bool
  supportsRefunds : Bool
  maxPaymentAmount : Int
  supportedCurrencies : List String
  supportedCountries : List String
deriving DecidableEq, Repr

/-- Embeds `services.ChargeRequest` (interfaces.go lines 128-135). -/
structure ChargeRequest where
  amount : Int
  currency : String
  customerID : String
  paymentMethod : String
  description : String
  metadata : List (String × String)
deriving DecidableEq, Repr

/-- Embeds `services.Charge` (interfaces.go lines 137-149). -/
structure Charge where
  id : String
  amount : Int
  currency : String
  status : String
  customerID : String
  paymentMethodID : String
  description : String
  metadata : List (String × String)
  created : Int
  updated : Int
  providerID : String
deriving DecidableEq, Repr

/-- Embeds `services.CustomerRequest` (interfaces.go lines 79-85). -/
structure CustomerRequest where
  email : String
  name : String
  phone : String
  description : String
  metadata : List (String × String)
deriving DecidableEq, Repr

/-- Embeds `services.Customer` (interfaces.go lines 87-97). -/
structure Customer where
  id : String
  email : String
  name : String
  phone : String
  description : String
  metadata : List (String × String)
  created : Int
  updated : Int
  providerID : String
deriving DecidableEq, Repr

/-- Embeds `services.RefundRequest` (interfaces.go lines 151-156). -/
structure RefundRequest where
  chargeID : String
  amount : Int
  reason : String
  metadata : List (String × String)
deriving DecidableEq, Repr

/-- Embeds `services.Refund` (interfaces.go lines 158-169). -/
structure Refund where
  id : String
  chargeID : String
  amount : Int
  currency : String
  status : String
  reason : String
  metadata : List (String × String)
  created : Int
  updated : Int
  providerID : String
deriving DecidableEq, Repr

/-- Embeds `services.DisputeRequest` (interfaces.go lines 171-177). -/
structure DisputeRequest where
  chargeID : String
  amount : Int
  reason : String
  evidence : List (String × String)
  metadata : List (String × String)
deriving DecidableEq, Repr

/-- Embeds `services.Dispute` (interfaces.go lines 179-191). -/
structure Dispute where
  id : String
  chargeID : String
  amount : Int
  currency : String
  status : String
  reason : String
  evidence : List (String × String)
  metadata : List (String × String)
  created : Int
  updated : Int
  providerID : String
deriving DecidableEq, Repr

/-- A Go `(*T, error)` return pair: either component may be nil. -/
def GoRet (α : Type) : Type := Option α × Option String

/-- Embeds `kafka.MockProducer` (kafka.go lines 104-146): records published events;
`errors` maps an event type to a forced publish error. -/
structure MockProducer where
  events : List Kafka.PaymentEvent
  errors : List (String × String)
deriving DecidableEq, Repr

/-- Embeds `MockProducer.Publish` (kafka.go lines 118-126): returns the configured
error for the event's type, otherwise records the event. -/
def MockProducer.Publish (m : MockProducer) (topic : String)
    (event : Kafka.PaymentEvent) : Except String Unit × MockProducer :=
  match assocFind? m.errors event.type' with
  | some err => (.error err, m)
  | none => (.ok (), { m with events := m.events ++ [event] })

/-- The spy adapter of the spec's testable property: a `PaymentGateway`
(interfaces.go lines 10-24) whose responses are canned pure functions and
which records every create-type invocation it receives. -/
structure SpyGateway where
  providerName : String
  capabilities : GatewayCapabilities
  chargeResult : ChargeRequest → GoRet Charge
  customerResult : CustomerRequest → GoRet Customer
  refundResult : RefundRequest → GoRet Refund
  disputeResult : DisputeRequest → GoRet Dispute
  chargeCalls : List ChargeRequest
  customerCalls : List CustomerRequest
  refundCalls : List RefundRequest
  disputeCalls : List DisputeRequest

/-- Embeds `services.PaymentService` (part_009 lines 13-17), wrapping one gateway and
an optional event publisher (`SetEventPublisher`, part_009 lines 303-305). -/
structure PaymentService where
  gateway : SpyGateway
  eventPublisher : Option MockProducer

/-- The envelope literal built by `PaymentService.publishEvent` (part_009
lines 313-317): only `Type`, `Source` and `Data` are set; `ID`, `Time` and
`SpecVersion` keep their Go zero values. -/
def buildServiceEvent (eventType source : String)
    (data : List (String × Kafka.GoVal)) : Kafka.PaymentEvent :=
  { id := "", type' := eventType, source := source, data := data
    time := 0, specversion := "" }

/-- Embeds `PaymentService.publishEvent` (part_009 lines 308-322): no-op without a
publisher; a publish error is only logged (`log.Printf`) and then dropped. -/
def publishEvent (s : PaymentService) (eventType source : String)
    (data : List (String × Kafka.GoVal)) : PaymentService :=
  match s.eventPublisher with
  | none => s
  | some pub =>
      match MockProducer.Publish pub "payment-events"
          (buildServiceEvent eventType source data) with
      | (.ok _, pub') => { s with eventPublisher := some pub' }
      | (.error _msg, pub') => { s with eventPublisher := some pub' }

/-- The spy's `CreateCharge`: record the invocation, answer from the canned
response function. -/
def gatewayCreateCharge (s : PaymentService) (req : ChargeRequest) :
    GoRet Charge × PaymentService :=
  (s.gateway.chargeResult req,
    { s with gateway := { s.gateway with
        chargeCalls := s.gateway.chargeCalls ++ [req] } })

/-- Embeds `PaymentService.CreateCharge` (part_009 lines 138-150): dispatches to the
gateway unconditionally; on `err == nil && charge != nil` publishes a
`charge.created` event; returns the gateway's `(charge, err)` verbatim. -/
def CreateCharge (s : PaymentService) (req : ChargeRequest) :
    GoRet Charge × PaymentService :=
  match gatewayCreateCharge s req with
  | ((some charge, none), s1) =>
      ((some charge, none), publishEvent s1 "charge.created" "/payments/charges"
        [("charge_id", .str charge.id), ("amount", .int charge.amount),
         ("currency", .str charge.currency), ("status", .str charge.status),
         ("customer_id", .str charge.customerID)])
  | (res, s1) => (res, s1)

/-- The spy's `CreateCustomer`. -/
def gatewayCreateCustomer (s : PaymentService) (req : CustomerRequest) :
    GoRet Customer × PaymentService :=
  (s.gateway.customerResult req,
    { s with gateway := { s.gateway with
        customerCalls := s.gateway.customerCalls ++ [req] } })

/-- Embeds `PaymentService.CreateCustomer` (part_009 lines 96-106). -/
def CreateCustomer (s : PaymentService) (req : CustomerRequest) :
    GoRet Customer × PaymentService :=
  match gatewayCreateCustomer s req with
  | ((some customer, none), s1) =>
      ((some customer, none), publishEvent s1 "customer.created" "/payments/customers"
        [("customer_id", .str customer.id), ("email", .str customer.email),
         ("name", .str customer.name)])
  | (res, s1) => (res, s1)

/-- The spy's `CreateRefund`. -/
def gatewayCreateRefund (s : PaymentService) (req : RefundRequest) :
    GoRet Refund × PaymentService :=
  (s.gateway.refundResult req,
    { s with gateway := { s.gateway with
        refundCalls := s.gateway.refundCalls ++ [req] } })

/-- Embeds `PaymentService.CreateRefund` (part_009 lines 161-174). -/
def CreateRefund (s : PaymentService) (req : RefundRequest) :
    GoRet Refund × PaymentService :=
  match gatewayCreateRefund s req with
  | ((some refund, none), s1) =>
      ((some refund, none), publishEvent s1 "refund.created" "/payments/refunds"
        [("refund_id", .str refund.id), ("charge_id", .str refund.chargeID),
         ("amount", .int refund.amount), ("currency", .str refund.currency),
         ("status", .str refund.status), ("reason", .str refund.reason)])
  | (res, s1) => (res, s1)

/-- The spy's `CreateDispute`. -/
def gatewayCreateDispute (s : PaymentService) (req : DisputeRequest) :
    GoRet Dispute × PaymentService :=
  (s.gateway.disputeResult req,
    { s with gateway := { s.gateway with
        disputeCalls := s.gateway.disputeCalls ++ [req] } })

/-- Embeds `PaymentService.CreateDispute` (part_009 lines 185-198). -/
def CreateDispute (s : PaymentService) (req : DisputeRequest) :
    GoRet Dispute × PaymentService :=
  match gatewayCreateDispute s req with
  | ((some dispute, none), s1) =>
      ((some dispute, none), publishEvent s1 "dispute.created" "/payments/disputes"
        [("dispute_id", .str dispute.id), ("charge_id", .str dispute.chargeID),
         ("amount", .int dispute.amount), ("currency", .str dispute.currency),
         ("status", .str dispute.status), ("reason", .str dispute.reason)])
  | (res, s1) => (res, s1)

/-- Embeds `PaymentService.ValidatePaymentRequest` (part_009 lines 325-347): a
currency membership scan over `SupportedCurrencies`, then the
`MaxPaymentAmount` bound; `none` means the request passed validation. -/
def ValidatePaymentRequest (s : PaymentService) (req : ChargeRequest) :
    Option String :=
  let capabilities := s.gateway.capabilities
  let currencySupported := capabilities.supportedCurrencies.contains req.currency
  if ¬ currencySupported then
    some ("currency " ++ req.currency ++ " is not supported by provider " ++
      s.gateway.providerName)
  else if req.amount > capabilities.maxPaymentAmount then
    some ("amount " ++ toString req.amount ++ " exceeds maximum allowed amount " ++
      toString capabilities.maxPaymentAmount ++ " for provider " ++
      s.gateway.providerName)
  else none

/-- The field-backfill portion of `KafkaProducer.Publish` (kafka.go lines
54-64): a missing id, time or specversion is filled in before the send (the
sarama network send itself is external I/O).  `freshId` stands for
`uuid.New().String()` and `now` for `time.Now().UTC()`. -/
def kafkaProducerNormalize (freshId : String) (now : Int)
    (event : Kafka.PaymentEvent) : Kafka.PaymentEvent :=
  let e1 := if event.id = "" then { event with id := freshId } else event
  let e2 := if e1.time = 0 then { e1 with time := now } else e1
  if e2.specversion = "" then { e2 with specversion := "1.0" } else e2

/-- A deployment owning both the payment service of part_009 and the
dead-letter queue manager of kafka.go.  part_009 holds no reference to any
`DeadLetterQueueManager` and never calls `SendToDeadLetterQueue`, so a
create-charge step acts on the service alone and the DLQ component is carried
through untouched. -/
def systemCreateCharge (s : PaymentService) (dlq : Kafka.DeadLetterQueueManager)
    (req : ChargeRequest) :
    (GoRet Charge × PaymentService) × Kafka.DeadLetterQueueManager :=
  (CreateCharge s req, dlq)

theorem publishEvent_gateway (s : PaymentService) (eventType source : String)
    (data : List (String × Kafka.GoVal)) :
    (publishEvent s eventType source data).gateway = s.gateway := by
  unfold publishEvent
  cases s.eventPublisher with
  | none => rfl
  | some pub =>
      cases hp : MockProducer.Publish pub "payment-events"
          (buildServiceEvent eventType source data) with
      | mk r pub' => cases r <;> simp [hp]

theorem createCharge_records_call (s : PaymentService) (req : ChargeRequest) :
    (CreateCharge s req).2.gateway.chargeCalls = s.gateway.chargeCalls ++ [req] := by
  unfold CreateCharge gatewayCreateCharge
  rcases hres : s.gateway.chargeResult req with ⟨oc, oe⟩
  cases oc <;> cases oe <;> simp [hres, publishEvent_gateway]

end Services

namespace Factory

/-- The opaque configuration bag handed to a provider constructor
(part_008: `map[string]interface{}`). -/
def GatewayConfig : Type := List (String × Kafka.GoVal)

/-- A constructed gateway instance (part_008's `PaymentGateway` interface
value); only its identity matters for the factory contract. -/
structure LiveGateway where
  providerName : String
deriving DecidableEq, Repr

/-- Embeds `UnsupportedProviderError` / `InvalidConfigError` (part_008 lines 400-414). -/
inductive FactoryError where
  | unsupportedProvider (provider : String)
  | invalidConfig (message : String)
deriving DecidableEq, Repr

/-- Embeds `services.DefaultProviderFactory` (part_008 lines 355-357): a map from
provider name to constructor function. -/
structure DefaultProviderFactory where
  providers : List (String × (GatewayConfig → Option LiveGateway × Option FactoryError))

/-- Embeds `DefaultProviderFactory.RegisterProvider` (part_008 lines 367-369). -/
def RegisterProvider (f : DefaultProviderFactory) (name : String)
    (creator : GatewayConfig → Option LiveGateway × Option FactoryError) :
    DefaultProviderFactory :=
  ⟨assocInsert f.providers name creator⟩

/-- Embeds `DefaultProviderFactory.CreateGateway`, faithful to part_008 lines
372-378: an unregistered name yields `UnsupportedProviderError`, but for a
registered name the fetched `creator` is discarded and `(nil, nil)` is
returned — the constructor is never invoked.  (In the source the fetched
`creator` is an unused variable, which contradicts the method's own doc
comment "creates a new payment gateway instance".) -/
def CreateGateway (f : DefaultProviderFactory) (provider : String)
    (config : GatewayConfig) : Option LiveGateway × Option FactoryError :=
  match assocFind? f.providers provider with
  | none => (none, some (.unsupportedProvider provider))
  | some _creator => (none, none)

/-- A constructor such as the `stripe` one registered in factory.go lines
19-21, returning a live gateway for any configuration. -/
def stripeCreator : GatewayConfig → Option LiveGateway × Option FactoryError :=
  fun _ => (some ⟨"stripe"⟩, none)

/-- A factory with the `stripe` provider registered. -/
def c3Factory : DefaultProviderFactory := RegisterProvider ⟨[]⟩ "stripe" stripeCreator

end Factory

end Payments

open Payments Payments.Factory in
/-- C3 (code bug, evaluated at the failing input): with `stripe` registered,
`CreateGateway "stripe"` returns `(nil, nil)` — no gateway and no error —
even though the registered constructor would have produced a live instance;
the unregistered branch does return `UnsupportedProviderError` as specified. -/
theorem C3_create_gateway_never_invokes_constructor :
    CreateGateway c3Factory "stripe" [] = (none, none) ∧
    stripeCreator [] = (some ⟨"stripe"⟩, none) ∧
    CreateGateway c3Factory "unknown" [] =
      (none, some (.unsupportedProvider "unknown")) := by
  refine ⟨rfl, rfl, rfl⟩

open Payments Payments.Services in
/-- C1 (amended): `ValidatePaymentRequest` rejects every request whose
currency is outside `SupportedCurrencies` or whose amount exceeds
`MaxPaymentAmount` — without contacting the gateway — but
`PaymentService.CreateCharge` does not invoke it: it dispatches to the
gateway adapter unconditionally, recording exactly one adapter invocation
even for such requests. -/
theorem C1_validate_rejects_but_createCharge_dispatches
    (s : PaymentService) (req : ChargeRequest)
    (h : ¬ s.gateway.capabilities.supportedCurrencies.contains req.currency ∨
      req.amount > s.gateway.capabilities.maxPaymentAmount) :
    (ValidatePaymentRequest s req).isSome = true ∧
    (CreateCharge s req).2.gateway.chargeCalls = s.gateway.chargeCalls ++ [req] := by
  refine ⟨?_, createCharge_records_call s req⟩
  by_cases hc : s.gateway.capabilities.supportedCurrencies.contains req.currency
  · rcases h with h | h
    · exact absurd hc h
    · have hm : req.currency ∈ s.gateway.capabilities.supportedCurrencies := by
        simpa using hc
      simp [ValidatePaymentRequest, hm, h]
  · have hm : req.currency ∉ s.gateway.capabilities.supportedCurrencies := by
      simpa using hc
    simp [ValidatePaymentRequest, hm]

open Payments Payments.Services in
/-- The spy gateway used by the concrete scenarios: capabilities `usd` only
with a 100000 maximum, every create operation answered successfully. -/
def spyOkGateway : SpyGateway where
  providerName := "stripe"
  capabilities :=
    { supportsSubscriptions := true, supportsConnect := true, supportsTax := true
      supportsInvoices := true, supportsPayouts := true, supportsDisputes := true
      supportsRefunds := true, maxPaymentAmount := 100000
      supportedCurrencies := ["usd"], supportedCountries := ["US"] }
  chargeResult := fun req =>
    (some { id := "ch_1", amount := req.amount, currency := req.currency
            status := "succeeded", customerID := req.customerID
            paymentMethodID := req.paymentMethod, description := req.description
            metadata := [], created := 1700000000, updated := 1700000000
            providerID := "ch_1" }, none)
  customerResult := fun req =>
    (some { id := "cus_1", email := req.email, name := req.name, phone := req.phone
            description := req.description, metadata := [], created := 1700000000
            updated := 1700000000, providerID := "cus_1" }, none)
  refundResult := fun req =>
    (some { id := "re_1", chargeID := req.chargeID, amount := req.amount
            currency := "usd", status := "succeeded", reason := req.reason
            metadata := [], created := 1700000000, updated := 1700000000
            providerID := "re_1" }, none)
  disputeResult := fun req =>
    (some { id := "dp_1", chargeID := req.chargeID, amount := req.amount
            currency := "usd", status := "open", reason := req.reason
            evidence := [], metadata := [], created := 1700000000
            updated := 1700000000, providerID := "dp_1" }, none)
  chargeCalls := []
  customerCalls := []
  refundCalls := []
  disputeCalls := []

open Payments Payments.Services in
/-- A charge request in an unsupported currency. -/
def eurReq : ChargeRequest :=
  { amount := 1000, currency := "eur", customerID := "cus_1"
    paymentMethod := "", description := "", metadata := [] }

open Payments Payments.Services in
/-- A valid charge request within capabilities. -/
def usdReq : ChargeRequest :=
  { amount := 5000, currency := "usd", customerID := "cus_1"
    paymentMethod := "", description := "", metadata := [] }

open Payments Payments.Services in
/-- Witness for C1 at the concrete spy gateway and `eur` request. -/
theorem C1_validate_rejects_but_createCharge_dispatches_witness :
    (¬ (PaymentService.mk spyOkGateway none).gateway.capabilities.supportedCurrencies.contains
        eurReq.currency ∨
      eurReq.amount > (PaymentService.mk spyOkGateway none).gateway.capabilities.maxPaymentAmount) ∧
    ((ValidatePaymentRequest (PaymentService.mk spyOkGateway none) eurReq).isSome = true ∧
      (CreateCharge (PaymentService.mk spyOkGateway none) eurReq).2.gateway.chargeCalls =
        (PaymentService.mk spyOkGateway none).gateway.chargeCalls ++ [eurReq]) :=
  ⟨Or.inl (by decide),
    C1_validate_rejects_but_createCharge_dispatches
      (PaymentService.mk spyOkGateway none) eurReq (Or.inl (by decide))⟩

open Payments Payments.Services in
/-- C1 counterexample: for the charge request in the unsupported currency
`eur`, `CreateCharge` does not reject — the spy adapter records one
invocation (the claim demands zero) and the call returns the adapter's
successful charge with a nil error rather than a validation failure. -/
theorem C1_counterexample_adapter_invoked :
    (ValidatePaymentRequest (PaymentService.mk spyOkGateway none) eurReq).isSome = true ∧
    (CreateCharge (PaymentService.mk spyOkGateway none) eurReq).2.gateway.chargeCalls.length = 1 ∧
    (CreateCharge (PaymentService.mk spyOkGateway none) eurReq).1.1.isSome = true ∧
    (CreateCharge (PaymentService.mk spyOkGateway none) eurReq).1.2 = none := by
  refine ⟨by decide, by decide, by decide, by decide⟩

open Payments Payments.Services in
/-- A publisher whose `Publish` fails for `charge.created` events. -/
def failingProducer : MockProducer :=
  ⟨[], [("charge.created", "kafka: broker unreachable")]⟩

open Payments Payments.Services Payments.Kafka in
/-- C2 counterexample: the gateway call succeeds, `Publish` returns the
configured error — and no `DeadLetterEntry` exists anywhere afterwards: the
publisher recorded nothing and the dead-letter queue owned by the deployment
is still empty, so nothing is retained for retry. -/
theorem C2_counterexample_failed_publish_not_dead_lettered :
    ((CreateCharge (PaymentService.mk spyOkGateway (some failingProducer)) usdReq).1.1.isSome = true ∧
      (CreateCharge (PaymentService.mk spyOkGateway (some failingProducer)) usdReq).1.2 = none) ∧
    assocFind? failingProducer.errors "charge.created" = some "kafka: broker unreachable" ∧
    (CreateCharge (PaymentService.mk spyOkGateway (some failingProducer)) usdReq).2.eventPublisher =
      some failingProducer ∧
    (systemCreateCharge (PaymentService.mk spyOkGateway (some failingProducer))
      NewDeadLetterQueueManager usdReq).2.events.length = 0 := by
  refine ⟨⟨by decide, by decide⟩, by decide, by decide, by decide⟩

open Payments Payments.Services Payments.Kafka in
/-- C2 (amended): when the gateway call succeeds and the publisher's
`Publish` fails, the payment service only logs the error and drops the
event — the publisher state is unchanged (nothing recorded) and any
dead-letter queue owned by the deployment stays untouched, because the
service never invokes `SendToDeadLetterQueue`. -/
theorem C2_failed_publish_logged_and_dropped
    (s : PaymentService) (pub : MockProducer) (req : ChargeRequest)
    (charge : Charge) (msg : String)
    (hpub : s.eventPublisher = some pub)
    (hres : s.gateway.chargeResult req = (some charge, none))
    (herr : assocFind? pub.errors "charge.created" = some msg) :
    (CreateCharge s req).1 = (some charge, none) ∧
    (CreateCharge s req).2.eventPublisher = some pub ∧
    ∀ dlq, (systemCreateCharge s dlq req).2 = dlq := by
  refine ⟨?_, ?_, fun dlq => rfl⟩ <;>
    simp [CreateCharge, gatewayCreateCharge, hres, publishEvent, hpub,
      MockProducer.Publish, buildServiceEvent, herr]

open Payments Payments.Services Payments.Kafka in
/-- Witness for C2's amended statement at the concrete failing publisher. -/
theorem C2_failed_publish_logged_and_dropped_witness :
    ((PaymentService.mk spyOkGateway (some failingProducer)).eventPublisher =
        some failingProducer ∧
      (PaymentService.mk spyOkGateway (some failingProducer)).gateway.chargeResult usdReq =
        (some { id := "ch_1", amount := 5000, currency := "usd", status := "succeeded"
                customerID := "cus_1", paymentMethodID := "", description := ""
                metadata := [], created := 1700000000, updated := 1700000000
                providerID := "ch_1" }, none) ∧
      assocFind? failingProducer.errors "charge.created" = some "kafka: broker unreachable") ∧
    ((CreateCharge (PaymentService.mk spyOkGateway (some failingProducer)) usdReq).1 =
        (some { id := "ch_1", amount := 5000, currency := "usd", status := "succeeded"
                customerID := "cus_1", paymentMethodID := "", description := ""
                metadata := [], created := 1700000000, updated := 1700000000
                providerID := "ch_1" }, none) ∧
      (CreateCharge (PaymentService.mk spyOkGateway (some failingProducer)) usdReq).2.eventPublisher =
        some failingProducer ∧
      ∀ dlq, (systemCreateCharge (PaymentService.mk spyOkGateway (some failingProducer))
        dlq usdReq).2 = dlq) :=
  ⟨⟨rfl, rfl, rfl⟩,
    C2_failed_publish_logged_and_dropped
      (PaymentService.mk spyOkGateway (some failingProducer)) failingProducer usdReq
      _ "kafka: broker unreachable" rfl rfl rfl⟩

open Payments Payments.Kafka in
/-- C6: for any dead-letter queue state, `SendToDeadLetterQueue` with a non-nil
envelope and non-empty reason appends an entry with retry count 0, and a
subsequent `RetryEvent(e.id)` returns an envelope whose id equals `e.id`,
removes exactly one entry from `GetDeadLetterEvents()`, and bumps the
`GetStatistics()` retry counter by exactly 1. -/
theorem C6_dead_letter_roundtrip (dlq : DeadLetterQueueManager) (e : PaymentEvent)
    (reason : String) (now : Int) (hreason : reason ≠ "") :
    ∃ dlq1, SendToDeadLetterQueue dlq (some e) reason now = .ok dlq1 ∧
      GetDeadLetterEvents dlq1 = GetDeadLetterEvents dlq ++ [⟨e, reason, now, 0⟩] ∧
      ∃ e' dlq2, RetryEvent dlq1 e.id = (.ok e', dlq2) ∧ e'.id = e.id ∧
        (GetDeadLetterEvents dlq2).length + 1 = (GetDeadLetterEvents dlq1).length ∧
        (GetStatistics dlq2).retryCount = (GetStatistics dlq1).retryCount + 1 := by
  refine ⟨⟨dlq.events ++ [DeadLetterEvent.mk e reason now 0], dlq.totalRetries⟩, ?_, rfl, ?_⟩
  · simp [SendToDeadLetterQueue, hreason]
  · obtain ⟨e', rest, hloop, hid, hlen⟩ :=
      retryLoop_append_found dlq.events (DeadLetterEvent.mk e reason now 0) e.id rfl
    refine ⟨e', ⟨rest, dlq.totalRetries + 1⟩, ?_, hid, ?_, rfl⟩
    · simp [RetryEvent, hloop]
    · simp [GetDeadLetterEvents, hlen]

open Payments Payments.Kafka in
/-- Witness for C6 at a concrete queue state. -/
theorem C6_dead_letter_roundtrip_witness :
    ("publish timeout" : String) ≠ "" ∧
    (∃ dlq1,
      SendToDeadLetterQueue ⟨[], 0⟩
        (some ⟨"evt_1", "charge.created", "/payments/charges", [], 5, "1.0"⟩)
        "publish timeout" 9 = .ok dlq1 ∧
      GetDeadLetterEvents dlq1 = GetDeadLetterEvents ⟨[], 0⟩ ++
        [⟨⟨"evt_1", "charge.created", "/payments/charges", [], 5, "1.0"⟩,
          "publish timeout", 9, 0⟩] ∧
      ∃ e' dlq2,
        RetryEvent dlq1 (PaymentEvent.id ⟨"evt_1", "charge.created", "/payments/charges", [], 5, "1.0"⟩) = (.ok e', dlq2) ∧
        e'.id = (PaymentEvent.id ⟨"evt_1", "charge.created", "/payments/charges", [], 5, "1.0"⟩) ∧
        (GetDeadLetterEvents dlq2).length + 1 = (GetDeadLetterEvents dlq1).length ∧
        (GetStatistics dlq2).retryCount = (GetStatistics dlq1).retryCount + 1) :=
  ⟨by decide, C6_dead_letter_roundtrip ⟨[], 0⟩
    ⟨"evt_1", "charge.created", "/payments/charges", [], 5, "1.0"⟩
    "publish timeout" 9 (by decide)⟩

open Payments Payments.Kafka in
/-- C7: `ReplayEvents(start, end)` returns exactly the stored envelopes with
`start < time < end` (bounds excluded), leaves the stored log unchanged, and
bumps the replay counter by one on every call, including empty results. -/
theorem C7_replay_open_interval (erm : EventReplayManager) (startTime endTime : Int) :
    (ReplayEvents erm startTime endTime).1 =
      erm.events.filter (fun e => decide (startTime < e.time ∧ e.time < endTime)) ∧
    (∀ e, e ∈ (ReplayEvents erm startTime endTime).1 ↔
      e ∈ erm.events ∧ startTime < e.time ∧ e.time < endTime) ∧
    (ReplayEvents erm startTime endTime).2.replayCount = erm.replayCount + 1 ∧
    (ReplayEvents erm startTime endTime).2.events = erm.events := by
  refine ⟨replaySelect_eq_filter erm.events startTime endTime, ?_, rfl, rfl⟩
  intro e
  rw [show (ReplayEvents erm startTime endTime).1 = replaySelect erm.events startTime endTime from rfl,
    replaySelect_eq_filter, List.mem_filter]
  simp

open Payments Payments.Kafka in
/-- C9: `RetryEvent` with an id matching no queued entry returns an error and
leaves the queue contents, per-entry retry counts and the cumulative retry
counter exactly as they were. -/
theorem C9_retry_unknown_id_unchanged (dlq : DeadLetterQueueManager) (eventID : String)
    (h : ∀ d ∈ dlq.events, d.event.id ≠ eventID) :
    RetryEvent dlq eventID =
      (.error ("event with ID " ++ eventID ++ " not found in dead letter queue"), dlq) ∧
    GetDeadLetterEvents (RetryEvent dlq eventID).2 = GetDeadLetterEvents dlq ∧
    GetStatistics (RetryEvent dlq eventID).2 = GetStatistics dlq := by
  have hloop := retryLoop_not_found dlq.events eventID h
  refine ⟨?_, ?_, ?_⟩ <;> simp [RetryEvent, hloop]

open Payments Payments.Kafka in
/-- Witness for C9: a queue holding one entry, retried with a different id. -/
theorem C9_retry_unknown_id_unchanged_witness :
    (∀ d ∈ (DeadLetterQueueManager.mk
        [⟨⟨"evt_1", "charge.created", "/payments/charges", [], 5, "1.0"⟩, "r", 9, 0⟩] 3).events,
      d.event.id ≠ "evt_2") ∧
    (RetryEvent (DeadLetterQueueManager.mk
        [⟨⟨"evt_1", "charge.created", "/payments/charges", [], 5, "1.0"⟩, "r", 9, 0⟩] 3) "evt_2" =
      (.error ("event with ID " ++ "evt_2" ++ " not found in dead letter queue"),
        DeadLetterQueueManager.mk
          [⟨⟨"evt_1", "charge.created", "/payments/charges", [], 5, "1.0"⟩, "r", 9, 0⟩] 3) ∧
      GetDeadLetterEvents (RetryEvent (DeadLetterQueueManager.mk
        [⟨⟨"evt_1", "charge.created", "/payments/charges", [], 5, "1.0"⟩, "r", 9, 0⟩] 3) "evt_2").2 =
        GetDeadLetterEvents (DeadLetterQueueManager.mk
          [⟨⟨"evt_1", "charge.created", "/payments/charges", [], 5, "1.0"⟩, "r", 9, 0⟩] 3) ∧
      GetStatistics (RetryEvent (DeadLetterQueueManager.mk
        [⟨⟨"evt_1", "charge.created", "/payments/charges", [], 5, "1.0"⟩, "r", 9, 0⟩] 3) "evt_2").2 =
        GetStatistics (DeadLetterQueueManager.mk
          [⟨⟨"evt_1", "charge.created", "/payments/charges", [], 5, "1.0"⟩, "r", 9, 0⟩] 3)) :=
  ⟨by decide, C9_retry_unknown_id_unchanged _ "evt_2" (by decide)⟩

open Payments Payments.Kafka in
/-- C8: a successful `MigrateToVersion` yields a new envelope with the same
id, type, source and time, the data copied field for field, and `specversion`
set to the target; the migrated envelope validates against the target schema
(a validation failure yields no envelope, by the `Except` return); and the
identity migration (target equal to the envelope's own version) reproduces the
envelope exactly.  The original envelope is a pure value and is never
modified. -/
theorem C8_migrate_builds_validated_copy (vm : CloudEventsVersionManager)
    (event : PaymentEvent) (targetVersion : String) (m : PaymentEvent)
    (h : MigrateToVersion vm event targetVersion = .ok m) :
    m.id = event.id ∧ m.type' = event.type' ∧ m.source = event.source ∧
    m.time = event.time ∧ m.specversion = targetVersion ∧ m.data = event.data ∧
    ValidateAgainstVersion vm m targetVersion = .ok () ∧
    (targetVersion = event.specversion → m = event) := by
  unfold MigrateToVersion at h
  cases hfind : assocFind? vm.schemas (event.type' ++ ":" ++ targetVersion) with
  | none => rw [hfind] at h; exact absurd h (by simp)
  | some schema =>
      rw [hfind] at h
      simp only at h
      cases hval : ValidateAgainstVersion vm
          { id := event.id, type' := event.type', source := event.source
            data := copyData event.data, time := event.time
            specversion := targetVersion } targetVersion with
      | error e => rw [hval] at h; exact absurd h (by simp)
      | ok u =>
          rw [hval] at h
          simp only [Except.ok.injEq] at h
          subst h
          refine ⟨rfl, rfl, rfl, rfl, rfl, copyData_eq event.data, ?_, ?_⟩
          · cases u; exact hval
          · intro htv
            cases event
            simp [copyData_eq, htv]

open Payments Payments.Kafka in
/-- Witness for C8: identity migration of a `customer.created` v1.0 envelope
through the default schema registry. -/
theorem C8_migrate_builds_validated_copy_witness :
    MigrateToVersion NewCloudEventsVersionManager
      ⟨"evt_1", "customer.created", "/payments/customers",
        [("customer_id", .str "cus_1")], 1700000000, "1.0"⟩ "1.0" =
      .ok ⟨"evt_1", "customer.created", "/payments/customers",
        [("customer_id", .str "cus_1")], 1700000000, "1.0"⟩ ∧
    (PaymentEvent.data ⟨"evt_1", "customer.created", "/payments/customers",
        [("customer_id", .str "cus_1")], 1700000000, "1.0"⟩ =
      PaymentEvent.data ⟨"evt_1", "customer.created", "/payments/customers",
        [("customer_id", .str "cus_1")], 1700000000, "1.0"⟩ ∧
      ValidateAgainstVersion NewCloudEventsVersionManager
        ⟨"evt_1", "customer.created", "/payments/customers",
          [("customer_id", .str "cus_1")], 1700000000, "1.0"⟩ "1.0" = .ok ()) :=
  ⟨by rfl,
    (C8_migrate_builds_validated_copy NewCloudEventsVersionManager
      ⟨"evt_1", "customer.created", "/payments/customers",
        [("customer_id", .str "cus_1")], 1700000000, "1.0"⟩ "1.0"
      ⟨"evt_1", "customer.created", "/payments/customers",
        [("customer_id", .str "cus_1")], 1700000000, "1.0"⟩ (by rfl)).2.2.2.2.2.1 ▸
    ⟨rfl, (C8_migrate_builds_validated_copy NewCloudEventsVersionManager
      ⟨"evt_1", "customer.created", "/payments/customers",
        [("customer_id", .str "cus_1")], 1700000000, "1.0"⟩ "1.0"
      ⟨"evt_1", "customer.created", "/payments/customers",
        [("customer_id", .str "cus_1")], 1700000000, "1.0"⟩ (by rfl)).2.2.2.2.2.2.1⟩⟩

open Payments Payments.Services in
/-- A publisher whose `Publish` fails for all four create-type event types. -/
def failingAllProducer : MockProducer :=
  ⟨[], [("charge.created", "kafka down"), ("customer.created", "kafka down"),
    ("refund.created", "kafka down"), ("dispute.created", "kafka down")]⟩

open Payments Payments.Services in
/-- C4: with a publisher configured so that `Publish` fails for every
create-type event, each create operation still returns the successfully
created record with a nil error — the publish failure is never propagated to
the business result. -/
theorem C4_publish_failure_not_propagated (s : PaymentService) (pub : MockProducer)
    (hpub : s.eventPublisher = some pub)
    (hfail : ∀ t ∈ ["charge.created", "customer.created", "refund.created",
      "dispute.created"], (assocFind? pub.errors t).isSome = true) :
    (∀ req charge, s.gateway.chargeResult req = (some charge, none) →
      (CreateCharge s req).1 = (some charge, none)) ∧
    (∀ req customer, s.gateway.customerResult req = (some customer, none) →
      (CreateCustomer s req).1 = (some customer, none)) ∧
    (∀ req refund, s.gateway.refundResult req = (some refund, none) →
      (CreateRefund s req).1 = (some refund, none)) ∧
    (∀ req dispute, s.gateway.disputeResult req = (some dispute, none) →
      (CreateDispute s req).1 = (some dispute, none)) := by
  refine ⟨fun req charge hres => ?_, fun req customer hres => ?_,
    fun req refund hres => ?_, fun req dispute hres => ?_⟩
  · simp [CreateCharge, gatewayCreateCharge, hres]
  · simp [CreateCustomer, gatewayCreateCustomer, hres]
  · simp [CreateRefund, gatewayCreateRefund, hres]
  · simp [CreateDispute, gatewayCreateDispute, hres]

open Payments Payments.Services in
/-- Witness for C4 at the concrete spy gateway and all-failing publisher. -/
theorem C4_publish_failure_not_propagated_witness :
    ((PaymentService.mk spyOkGateway (some failingAllProducer)).eventPublisher =
        some failingAllProducer ∧
      (∀ t ∈ ["charge.created", "customer.created", "refund.created",
        "dispute.created"], (assocFind? failingAllProducer.errors t).isSome = true) ∧
      (PaymentService.mk spyOkGateway (some failingAllProducer)).gateway.chargeResult usdReq =
        (some { id := "ch_1", amount := 5000, currency := "usd", status := "succeeded"
                customerID := "cus_1", paymentMethodID := "", description := ""
                metadata := [], created := 1700000000, updated := 1700000000
                providerID := "ch_1" }, none)) ∧
    (CreateCharge (PaymentService.mk spyOkGateway (some failingAllProducer)) usdReq).1 =
      (some { id := "ch_1", amount := 5000, currency := "usd", status := "succeeded"
              customerID := "cus_1", paymentMethodID := "", description := ""
              metadata := [], created := 1700000000, updated := 1700000000
              providerID := "ch_1" }, none) :=
  ⟨⟨rfl, by decide, rfl⟩,
    (C4_publish_failure_not_propagated
      (PaymentService.mk spyOkGateway (some failingAllProducer)) failingAllProducer
      rfl (by decide)).1 usdReq _ rfl⟩

open Payments Payments.Services Payments.Kafka in
/-- C10: the envelope a create operation hands to the configured publisher
carries only type, source and data — id is empty, time is the zero time,
specversion is empty — so it fails the CloudEvents validator as-is; the
Kafka producer's `Publish` backfills exactly those three fields (fresh id,
time now, specversion "1.0"), but nothing in the `EventPublisher` interface
forces a publisher to do so. -/
theorem C10_service_envelope_minimal (s : PaymentService) (pub : MockProducer)
    (eventType source : String) (data : List (String × GoVal))
    (hpub : s.eventPublisher = some pub)
    (hok : assocFind? pub.errors eventType = none) :
    (buildServiceEvent eventType source data).id = "" ∧
    (buildServiceEvent eventType source data).time = 0 ∧
    (buildServiceEvent eventType source data).specversion = "" ∧
    Validate (buildServiceEvent eventType source data) = .error "event id is required" ∧
    (publishEvent s eventType source data).eventPublisher =
      some { pub with events := pub.events ++ [buildServiceEvent eventType source data] } ∧
    (∀ freshId now, kafkaProducerNormalize freshId now (buildServiceEvent eventType source data) =
      { id := freshId, type' := eventType, source := source, data := data
        time := now, specversion := "1.0" }) := by
  refine ⟨rfl, rfl, rfl, rfl, ?_, fun freshId now => rfl⟩
  simp [publishEvent, hpub, MockProducer.Publish, buildServiceEvent, hok]

open Payments Payments.Services Payments.Kafka in
/-- Witness for C10: a concrete publish of a `charge.created` envelope
through an error-free mock publisher, plus the Kafka backfill at a concrete
uuid and clock value. -/
theorem C10_service_envelope_minimal_witness :
    ((PaymentService.mk spyOkGateway (some (MockProducer.mk [] []))).eventPublisher =
        some (MockProducer.mk [] []) ∧
      assocFind? (MockProducer.mk [] []).errors "charge.created" = none) ∧
    ((buildServiceEvent "charge.created" "/payments/charges" [("amount", .int 5000)]).id = "" ∧
      Validate (buildServiceEvent "charge.created" "/payments/charges" [("amount", .int 5000)]) =
        .error "event id is required" ∧
      (publishEvent (PaymentService.mk spyOkGateway (some (MockProducer.mk [] [])))
        "charge.created" "/payments/charges" [("amount", .int 5000)]).eventPublisher =
        some (MockProducer.mk
          [buildServiceEvent "charge.created" "/payments/charges" [("amount", .int 5000)]] []) ∧
      kafkaProducerNormalize "uuid-1" 1700000000
        (buildServiceEvent "charge.created" "/payments/charges" [("amount", .int 5000)]) =
        { id := "uuid-1", type' := "charge.created", source := "/payments/charges"
          data := [("amount", .int 5000)], time := 1700000000, specversion := "1.0" }) :=
  ⟨⟨rfl, rfl⟩,
    (C10_service_envelope_minimal (PaymentService.mk spyOkGateway (some (MockProducer.mk [] [])))
        (MockProducer.mk [] []) "charge.created" "/payments/charges"
        [("amount", .int 5000)] rfl rfl).1,
    (C10_service_envelope_minimal (PaymentService.mk spyOkGateway (some (MockProducer.mk [] [])))
        (MockProducer.mk [] []) "charge.created" "/payments/charges"
        [("amount", .int 5000)] rfl rfl).2.2.2.1,
    (C10_service_envelope_minimal (PaymentService.mk spyOkGateway (some (MockProducer.mk [] [])))
        (MockProducer.mk [] []) "charge.created" "/payments/charges"
        [("amount", .int 5000)] rfl rfl).2.2.2.2.1,
    (C10_service_envelope_minimal (PaymentService.mk spyOkGateway (some (MockProducer.mk [] [])))
        (MockProducer.mk [] []) "charge.created" "/payments/charges"
        [("amount", .int 5000)] rfl rfl).2.2.2.2.2 "uuid-1" 1700000000⟩


open Payments.Webhook in
/-- C5: webhook signature verification succeeds exactly when the header
splits into the two tokens `t=<t>` and `v1=<hex>` (in either order), `t`
parses as an integer with `now - t` at most 300 seconds, and the `v1` value
equals `hex(HMAC-SHA256(secret, "<t>.<body>"))`; consequently a timestamp
older than 300 seconds is rejected even when the signature value is correct.
A mutation of the signature breaks the last equality, and a mutation of body
or timestamp changes the HMAC input, so each fails this characterization. -/
theorem C5_webhook_signature_characterization (secret : List Char) (now : Int)
    (header payload : List Char) :
    (verifySignature secret now header payload = .ok () ↔
      ∃ tStr n,
        (header.splitOn ',' =
            [tTok ++ tStr, v1Tok ++ hmacSha256Hex secret (tStr ++ '.' :: payload)] ∨
          header.splitOn ',' =
            [v1Tok ++ hmacSha256Hex secret (tStr ++ '.' :: payload), tTok ++ tStr]) ∧
        goParseInt tStr = some n ∧ now - n ≤ 300) ∧
    (∀ tStr sigStr n,
      (header.splitOn ',' = [tTok ++ tStr, v1Tok ++ sigStr] ∨
        header.splitOn ',' = [v1Tok ++ sigStr, tTok ++ tStr]) →
      goParseInt tStr = some n → now - n > 300 →
      verifySignature secret now header payload ≠ .ok ()) := by
  refine ⟨verifySignature_ok_iff secret now header payload, ?_⟩
  rintro tStr sigStr n hdec hpar hstale hok
  obtain ⟨t', n', hdec', hpar', htol'⟩ :=
    (verifySignature_ok_iff secret now header payload).mp hok
  have ht : t' = tStr := by
    rcases hdec with hd | hd <;> rcases hdec' with hd' | hd' <;> rw [hd] at hd' <;>
      simp only [List.cons.injEq, and_true] at hd'
    · have := congrArg (List.drop 2) hd'.1
      simpa [drop_two_t] using this.symm
    · exact absurd hd'.1 (append_tTok_ne_v1Tok _ _)
    · exact absurd hd'.1.symm (append_tTok_ne_v1Tok _ _)
    · have := congrArg (List.drop 2) hd'.2
      simpa [drop_two_t] using this.symm
  rw [ht, hpar] at hpar'
  have : n' = n := by injection hpar' with h; exact h.symm
  omega


set_option maxRecDepth 100000 in
open Payments.Webhook in
/-- Witness for C5: a concretely signed payload (`secret "whsec_test"`,
timestamp 1700000000, body "body") verifies 100 seconds later, and the same
correctly signed header is rejected 301 seconds later. -/
theorem C5_webhook_signature_characterization_witness :
    verifySignature "whsec_test".toList 1700000100
      "t=1700000000,v1=8beb633e6b331942f859b4ae89697edc9cd0d0a2f665d890b362aac2fd0c1c84".toList
      "body".toList = .ok () ∧
    verifySignature "whsec_test".toList 1700000301
      "t=1700000000,v1=8beb633e6b331942f859b4ae89697edc9cd0d0a2f665d890b362aac2fd0c1c84".toList
      "body".toList ≠ .ok () :=
  ⟨(C5_webhook_signature_characterization "whsec_test".toList 1700000100
      "t=1700000000,v1=8beb633e6b331942f859b4ae89697edc9cd0d0a2f665d890b362aac2fd0c1c84".toList
      "body".toList).1.mpr
      ⟨"1700000000".toList, 1700000000, Or.inl (by decide), by decide, by decide⟩,
   (C5_webhook_signature_characterization "whsec_test".toList 1700000301
      "t=1700000000,v1=8beb633e6b331942f859b4ae89697edc9cd0d0a2f665d890b362aac2fd0c1c84".toList
      "body".toList).2 "1700000000".toList
      "8beb633e6b331942f859b4ae89697edc9cd0d0a2f665d890b362aac2fd0c1c84".toList
      1700000000 (Or.inl (by decide)) (by decide) (by decide)⟩
